import Mathlib

/-!
Shallow embedding of the regression-scoring harness in
`scripts/test-regression.js` (detection analysis, suite scoring, run
aggregation, verdict and exit-code logic), together with theorems settling
the specification claims about it.

Embedding conventions:
* JavaScript strings are modelled as Lean `String` (lists of Unicode
  scalars); `toLowerStr` below stands for `toLowerCase`.
* `s.includes(pat)`, `s.indexOf(pat)` and `s.substring(a, b)` are embedded
  as the character-list functions `jsIncludes`, `jsIndexOf`, `jsSubstring`
  below.  All call sites of `substring` in the source satisfy `a ≤ b`, so
  no argument swapping is modelled.
* The JavaScript `RegExp` host object is modelled as an abstract
  `RegexEngine` parameter: `compiles kw` says whether `new RegExp(kw, "i")`
  succeeds, and `test kw s` is the result of `regex.test(s)`.
* JavaScript floating-point score arithmetic (`(found/total)*100` followed
  by `toFixed(1)` / `parseFloat`) is idealised as exact rational
  arithmetic in `ℚ`; the `"N/A"` string is the `ScoreVal.na` constructor.
* Wall-clock values (`new Date().toISOString()`) and CLI flags are passed
  in as explicit parameters (`now`, `depth`).
-/

namespace RegressionTest

set_option maxRecDepth 100000

/-- `matchesAt pat s` holds when `pat` occurs at the very start of `s`. -/
def matchesAt : List Char → List Char → Bool
  | [], _ => true
  | _ :: _, [] => false
  | p :: ps, c :: cs => p == c && matchesAt ps cs

/-- `includesChars pat s`: does `pat` occur anywhere inside `s`? -/
def includesChars (pat : List Char) : List Char → Bool
  | [] => matchesAt pat []
  | c :: rest => matchesAt pat (c :: rest) || includesChars pat rest

/-- First index at which `pat` occurs, counting from `i`. -/
def indexOfChars (pat : List Char) : List Char → Nat → Option Nat
  | [], i => if matchesAt pat [] then some i else none
  | c :: rest, i =>
    if matchesAt pat (c :: rest) then some i else indexOfChars pat rest (i + 1)

/-- JavaScript `s.includes(pat)`. -/
def jsIncludes (s pat : String) : Bool := includesChars pat.data s.data

/-- JavaScript `s.indexOf(pat)`, with `none` standing for `-1`. -/
def jsIndexOf (s pat : String) : Option Nat := indexOfChars pat.data s.data 0

/-- JavaScript `s.substring(a, b)` for `a ≤ b` (the only shape used). -/
def jsSubstring (s : String) (a b : Nat) : String :=
  String.mk ((s.data.take b).drop a)

/-- JavaScript `s.toLowerCase()`, as a character-wise map (kernel
reducible, unlike the byte-based `String.toLower`). -/
def toLowerStr (s : String) : String := String.mk (s.data.map Char.toLower)

/-- JavaScript `s.toUpperCase()`, as a character-wise map. -/
def toUpperStr (s : String) : String := String.mk (s.data.map Char.toUpper)

/-- Severity levels of the harness, in rank order. -/
inductive Severity
  | INFO
  | LOW
  | MEDIUM
  | HIGH
  | CRITICAL
deriving DecidableEq, Repr

/-- Rank of a severity: the numbers of the `SEVERITY_RANK` table. -/
def Severity.rank : Severity → Nat
  | .INFO => 0
  | .LOW => 1
  | .MEDIUM => 2
  | .HIGH => 3
  | .CRITICAL => 4

/-- The `SEVERITY_RANK` lookup table of the script
(`{INFO:0, INFORMATIONAL:0, LOW:1, MEDIUM:2, HIGH:3, CRITICAL:4}`);
`none` models a missing key (JavaScript `undefined`). -/
def SEVERITY_RANK (s : String) : Option Nat :=
  if s = "INFO" then some 0
  else if s = "INFORMATIONAL" then some 0
  else if s = "LOW" then some 1
  else if s = "MEDIUM" then some 2
  else if s = "HIGH" then some 3
  else if s = "CRITICAL" then some 4
  else none

/-- `SEVERITY_RANK[fp.maxAcceptableSeverity.toUpperCase()] || 1`:
JavaScript `||` replaces both `undefined` and the falsy rank `0` by `1`. -/
def maxRankOf (s : String) : Nat :=
  match SEVERITY_RANK (toUpperStr s) with
  | some r => if r = 0 then 1 else r
  | none => 1

/-- One expected finding of a fixture (fields of the JSON test
definitions used by the script). -/
structure ExpectedFinding where
  id : String
  description : String
  severity : String
  keywords : List String
deriving DecidableEq, Repr

/-- One false-positive specification of a fixture. -/
structure FalsePositiveSpec where
  description : String
  keywords : List String
  maxAcceptableSeverity : String
deriving DecidableEq, Repr

/-- Abstract model of the JavaScript `RegExp` host:
`compiles kw` = `new RegExp(kw, "i")` succeeds,
`test kw s` = `regex.test(s)` for that compiled regex. -/
structure RegexEngine where
  compiles : String → Bool
  test : String → String → Bool

/-- Body of the keyword loop of `checkFindingDetected`: `kw` is the already
lowercased keyword.  A keyword containing `.*`, `[` or `(` is tried as a
case-insensitive regex against the original-case report; if compilation
fails it falls back to a plain substring test on the lowercased report;
any other keyword is a plain substring test on the lowercased report. -/
def keywordMatches (E : RegexEngine) (report reportLower kw : String) : Bool :=
  if jsIncludes kw ".*" || jsIncludes kw "[" || jsIncludes kw "(" then
    if E.compiles kw then E.test kw report
    else jsIncludes reportLower kw
  else jsIncludes reportLower kw

/-- The keyword loop of `checkFindingDetected`: return `true` on the first
matching keyword, `false` when the list is exhausted. -/
def checkFindingDetectedLoop (E : RegexEngine) (report reportLower : String) :
    List String → Bool
  | [] => false
  | keyword :: rest =>
    if keywordMatches E report reportLower (toLowerStr keyword) then true
    else checkFindingDetectedLoop E report reportLower rest

/-- `checkFindingDetected(report, finding)` of the script. -/
def checkFindingDetected (E : RegexEngine) (report : String)
    (finding : ExpectedFinding) : Bool :=
  checkFindingDetectedLoop E report (toLowerStr report) finding.keywords

/-- The backward context window of `detectSeverityForFinding`:
`reportLower.substring(Math.max(0, idx - 500), idx)`
(natural-number subtraction is exactly `Math.max(0, idx - 500)`). -/
def severityWindowAt (reportLower : String) (idx : Nat) : String :=
  jsSubstring reportLower (idx - 500) idx

/-- The severity scan of `detectSeverityForFinding` over one context
window, in priority order CRITICAL, HIGH, MEDIUM, LOW, INFO, matching the
English word or the emoji as a bare substring. -/
def scanSeverityWindow (contextBefore : String) : Option Severity :=
  if jsIncludes contextBefore "critical" || jsIncludes contextBefore "🔴" then
    some Severity.CRITICAL
  else if jsIncludes contextBefore "high" || jsIncludes contextBefore "🟠" then
    some Severity.HIGH
  else if jsIncludes contextBefore "medium" || jsIncludes contextBefore "🟡" then
    some Severity.MEDIUM
  else if jsIncludes contextBefore "low" || jsIncludes contextBefore "🔵" then
    some Severity.LOW
  else if jsIncludes contextBefore "info" || jsIncludes contextBefore "ℹ️" then
    some Severity.INFO
  else none

/-- What one keyword of `detectSeverityForFinding` yields: `none` when the
(lowercased) keyword does not occur in the lowercased report, or occurs but
its 500-character backward window shows no severity marker. -/
def keywordSeverity (reportLower kw : String) : Option Severity :=
  match jsIndexOf reportLower kw with
  | none => none
  | some idx => scanSeverityWindow (severityWindowAt reportLower idx)

/-- The keyword loop of `detectSeverityForFinding`: keywords in listed
order, returning on the first that yields a severity. -/
def detectSeverityLoop (reportLower : String) : List String → Option Severity
  | [] => none
  | keyword :: rest =>
    match keywordSeverity reportLower (toLowerStr keyword) with
    | some s => some s
    | none => detectSeverityLoop reportLower rest

/-- `detectSeverityForFinding(report, finding)` of the script. -/
def detectSeverityForFinding (report : String) (finding : ExpectedFinding) :
    Option Severity :=
  detectSeverityLoop (toLowerStr report) finding.keywords

/-- The asymmetric window of `checkFalsePositive`:
`reportLower.substring(Math.max(0, idx - 800), Math.min(len, idx + 200))`. -/
def fpWindowAt (reportLower : String) (idx : Nat) : String :=
  jsSubstring reportLower (idx - 800) (min reportLower.length (idx + 200))

/-- A CRITICAL marker (word or emoji) occurs in the window. -/
def hasCriticalMarker (context : String) : Bool :=
  jsIncludes context "critical" || jsIncludes context "🔴"

/-- A HIGH marker (word or emoji) occurs in the window. -/
def hasHighMarker (context : String) : Bool :=
  jsIncludes context "high" || jsIncludes context "🟠"

/-- Body of the keyword loop of `checkFalsePositive` for one lowercased
keyword `kw`: the two `if` statements of the source, with
`SEVERITY_RANK['CRITICAL'] = 4` and `SEVERITY_RANK['HIGH'] = 3`. -/
def fpKeywordTriggers (reportLower : String) (fp : FalsePositiveSpec)
    (kw : String) : Bool :=
  match jsIndexOf reportLower kw with
  | none => false
  | some idx =>
    let context := fpWindowAt reportLower idx
    let maxRank := maxRankOf fp.maxAcceptableSeverity
    (hasCriticalMarker context && decide (maxRank < 4)) ||
    (hasHighMarker context && decide (maxRank < 3))

/-- `checkFalsePositive(report, fp)` of the script: the
`foundHighSeverity` flag accumulated across all keywords. -/
def checkFalsePositive (report : String) (fp : FalsePositiveSpec) : Bool :=
  let reportLower := (toLowerStr report)
  fp.keywords.foldl
    (fun foundHighSeverity keyword =>
      foundHighSeverity || fpKeywordTriggers reportLower fp (toLowerStr keyword))
    false

/-- One entry of a `mustDetect`/`shouldDetect`/`niceToDetect` `items`
array: the finding spread together with its `detected` flag. -/
structure ItemResult where
  id : String
  description : String
  severity : String
  keywords : List String
  detected : Bool
deriving DecidableEq, Repr

/-- One entry of the `falsePositives.items` array. -/
structure FpItemResult where
  description : String
  keywords : List String
  maxAcceptableSeverity : String
  triggered : Bool
deriving DecidableEq, Repr

/-- A detection tier of a `SuiteResult`: `{found, total, items}`. -/
structure TierResult where
  found : Nat
  total : Nat
  items : List ItemResult
deriving DecidableEq, Repr

/-- The false-positive part of a `SuiteResult`: `{triggered, total, items}`. -/
structure FpResult where
  triggered : Nat
  total : Nat
  items : List FpItemResult
deriving DecidableEq, Repr

/-- A score value of the script: either a percentage (the script's
`toFixed(1)` string, idealised as an exact rational) or the literal
string `N/A`. -/
inductive ScoreVal
  | pct (q : ℚ)
  | na
deriving DecidableEq, Repr

/-- The `scores` object of a `SuiteResult`. -/
structure Scores where
  critical : ScoreVal
  overall : ScoreVal
  falsePositiveRate : ScoreVal
deriving DecidableEq, Repr

/-- The per-suite result object built by `testContract`. -/
structure SuiteResult where
  name : String
  depth : String
  timestamp : String
  mustDetect : TierResult
  shouldDetect : TierResult
  niceToDetect : TierResult
  falsePositives : FpResult
  scores : Scores
deriving DecidableEq, Repr

/-- The `expectedFindings` block of a test suite. -/
structure Findings where
  mustDetect : List ExpectedFinding
  shouldDetect : List ExpectedFinding
  niceToDetect : List ExpectedFinding
  falsePositives : List FalsePositiveSpec
deriving DecidableEq, Repr

/-- One test suite of `test-definitions.json`; `context` abstracts the
audit-context object forwarded verbatim to the generator. -/
structure TestSuite where
  name : String
  contractFile : String
  context : String
  expectedFindings : Findings
deriving DecidableEq, Repr

/-- Loop body for one detection tier of `testContract`:
`total++`, `found += detected ? 1 : 0`, `items.push({...finding, detected})`. -/
def scoreTierStep (E : RegexEngine) (report : String) (acc : TierResult)
    (finding : ExpectedFinding) : TierResult :=
  let detected := checkFindingDetected E report finding
  { found := acc.found + (if detected then 1 else 0)
    total := acc.total + 1
    items := acc.items ++
      [{ id := finding.id, description := finding.description,
         severity := finding.severity, keywords := finding.keywords,
         detected := detected }] }

/-- One detection tier of `testContract`, starting from
`{found: 0, total: 0, items: []}`. -/
def scoreTier (E : RegexEngine) (report : String)
    (findings : List ExpectedFinding) : TierResult :=
  findings.foldl (scoreTierStep E report) { found := 0, total := 0, items := [] }

/-- Loop body for the false-positive block of `testContract`. -/
def scoreFpsStep (report : String) (acc : FpResult) (fp : FalsePositiveSpec) :
    FpResult :=
  let triggered := checkFalsePositive report fp
  { triggered := acc.triggered + (if triggered then 1 else 0)
    total := acc.total + 1
    items := acc.items ++
      [{ description := fp.description, keywords := fp.keywords,
         maxAcceptableSeverity := fp.maxAcceptableSeverity,
         triggered := triggered }] }

/-- The false-positive block of `testContract`. -/
def scoreFps (report : String) (fps : List FalsePositiveSpec) : FpResult :=
  fps.foldl (scoreFpsStep report) { triggered := 0, total := 0, items := [] }

/-- The derived per-suite scores of `testContract`:
`criticalScore`, `overallScore` (zero totals give the string `N/A`) and
`fpRate` (zero total gives `0`). -/
def suiteScores (must should nice : TierResult) (fps : FpResult) : Scores :=
  let totalExpected := must.total + should.total + nice.total
  let totalFound := must.found + should.found + nice.found
  { critical :=
      if 0 < must.total then
        ScoreVal.pct ((must.found : ℚ) / must.total * 100)
      else ScoreVal.na
    overall :=
      if 0 < totalExpected then
        ScoreVal.pct ((totalFound : ℚ) / totalExpected * 100)
      else ScoreVal.na
    falsePositiveRate :=
      if 0 < fps.total then
        ScoreVal.pct ((fps.triggered : ℚ) / fps.total * 100)
      else ScoreVal.pct 0 }

/-- The scoring part of `testContract` (everything after a report has been
obtained): builds the `results` object with `timestamp: now` and
`depth: AUDIT_DEPTH`. -/
def scoreSuite (E : RegexEngine) (now depth : String) (suite : TestSuite)
    (report : String) : SuiteResult :=
  let must := scoreTier E report suite.expectedFindings.mustDetect
  let should := scoreTier E report suite.expectedFindings.shouldDetect
  let nice := scoreTier E report suite.expectedFindings.niceToDetect
  let fps := scoreFps report suite.expectedFindings.falsePositives
  { name := suite.name
    depth := depth
    timestamp := now
    mustDetect := must
    shouldDetect := should
    niceToDetect := nice
    falsePositives := fps
    scores := suiteScores must should nice fps }

/-- Outcome of one `runAudit` call: the report text, or a thrown error. -/
inductive GenResult
  | ok (report : String)
  | err (msg : String)
deriving DecidableEq, Repr

/-- `testContract(suite)`: `null` (here `none`) when the contract file is
missing, when `runAudit` throws, or when the report is empty or shorter
than 100 characters; otherwise the scored `SuiteResult`. -/
def testContract (E : RegexEngine) (fileOk : TestSuite → Bool)
    (gen : TestSuite → GenResult) (now depth : String) (suite : TestSuite) :
    Option SuiteResult :=
  if !fileOk suite then none
  else
    match gen suite with
    | GenResult.err _ => none
    | GenResult.ok report =>
      if report.length < 100 then none
      else some (scoreSuite E now depth suite report)

/-- The suite loop of `main`:
`const result = await testContract(suite); if (result) allResults.push(result)` —
`null` results are skipped. -/
def runSuites (E : RegexEngine) (fileOk : TestSuite → Bool)
    (gen : TestSuite → GenResult) (now depth : String) :
    List TestSuite → List SuiteResult
  | [] => []
  | suite :: rest =>
    match testContract E fileOk gen now depth suite with
    | some r => r :: runSuites E fileOk gen now depth rest
    | none => runSuites E fileOk gen now depth rest

/-- The six accumulators of the final summary of `main`. -/
structure Totals where
  totalMust : Nat
  foundMust : Nat
  totalAll : Nat
  foundAll : Nat
  totalFP : Nat
  triggeredFP : Nat
deriving DecidableEq, Repr

/-- Loop body of the summary accumulation over `allResults`. -/
def accTotalsStep (t : Totals) (r : SuiteResult) : Totals :=
  { totalMust := t.totalMust + r.mustDetect.total
    foundMust := t.foundMust + r.mustDetect.found
    totalAll := t.totalAll + r.mustDetect.total + r.shouldDetect.total +
      r.niceToDetect.total
    foundAll := t.foundAll + r.mustDetect.found + r.shouldDetect.found +
      r.niceToDetect.found
    totalFP := t.totalFP + r.falsePositives.total
    triggeredFP := t.triggeredFP + r.falsePositives.triggered }

/-- The summary accumulation of `main` over `allResults`. -/
def accTotals (results : List SuiteResult) : Totals :=
  results.foldl accTotalsStep
    { totalMust := 0, foundMust := 0, totalAll := 0, foundAll := 0,
      totalFP := 0, triggeredFP := 0 }

/-- Global `mustScore` of `main`: `'100'` (not `N/A`) when `totalMust` is
zero. -/
def globalMustScore (t : Totals) : ScoreVal :=
  if 0 < t.totalMust then ScoreVal.pct ((t.foundMust : ℚ) / t.totalMust * 100)
  else ScoreVal.pct 100

/-- Global `allScore` of `main`: `'100'` (not `N/A`) when `totalAll` is
zero. -/
def globalAllScore (t : Totals) : ScoreVal :=
  if 0 < t.totalAll then ScoreVal.pct ((t.foundAll : ℚ) / t.totalAll * 100)
  else ScoreVal.pct 100

/-- Global `fpScore` of `main`: `'0'` when `totalFP` is zero. -/
def globalFpScore (t : Totals) : ScoreVal :=
  if 0 < t.totalFP then ScoreVal.pct ((t.triggeredFP : ℚ) / t.totalFP * 100)
  else ScoreVal.pct 0

/-- `parseFloat(score) >= 100`; `parseFloat('N/A')` is `NaN` and every
comparison with `NaN` is false. -/
def ScoreVal.parseGe100 : ScoreVal → Bool
  | .pct q => decide (100 ≤ q)
  | .na => false

/-- `parseFloat(score) === 0`; false on `NaN`. -/
def ScoreVal.parseEq0 : ScoreVal → Bool
  | .pct q => decide (q = 0)
  | .na => false

/-- The final verdict of `main`:
`passed = parseFloat(mustScore) >= 100 && parseFloat(fpScore) === 0`. -/
def passedVerdict (t : Totals) : Bool :=
  (globalMustScore t).parseGe100 && (globalFpScore t).parseEq0

/-- Process exit code of `main` as a function of its branch conditions, in
source order: missing `test-definitions.json` → `exit(1)`; a filter that
matches no suite → `exit(1)`; generator server unreachable → `exit(1)`;
then, after the run, `CI_MODE && !passed` → `exit(1)`; otherwise the
process ends normally with code `0`. -/
def mainExitCode (ciMode fixtureOk filterOk serverOk passed : Bool) : Nat :=
  if !fixtureOk then 1
  else if !filterOk then 1
  else if !serverOk then 1
  else if ciMode && !passed then 1
  else 0

/-- A regex engine on which every pattern fails to compile; the concrete
fixtures below use metacharacter-free keywords, so no regex path is taken. -/
def trivialEngine : RegexEngine :=
  { compiles := fun _ => false, test := fun _ _ => false }

/-- An empty expected-findings block. -/
def emptyFindings : Findings :=
  { mustDetect := [], shouldDetect := [], niceToDetect := [], falsePositives := [] }

/-- Fixture suite whose generation will fail. -/
def suiteA : TestSuite :=
  { name := "A", contractFile := "a.sol", context := "", expectedFindings := emptyFindings }

/-- Fixture suite whose generation will succeed. -/
def suiteB : TestSuite :=
  { name := "B", contractFile := "b.sol", context := "", expectedFindings := emptyFindings }

/-- A syntactically valid report of 120 characters (above the 100-character
minimum length check of `testContract`). -/
def longReport : String := String.mk (List.replicate 120 'a')

/-- A generator that throws for suite `A` and returns `longReport`
otherwise. -/
def genAB : TestSuite → GenResult := fun suite =>
  if suite.name = "A" then GenResult.err "network error" else GenResult.ok longReport

/-- Report rating the benign pattern `safeWithdraw` as MEDIUM. -/
def fpMedReport : String := "medium risk: safewithdraw here"

/-- False-positive spec with a LOW ceiling for `safeWithdraw`. -/
def fpMedSpec : FalsePositiveSpec :=
  { description := "benign withdraw", keywords := ["safeWithdraw"],
    maxAcceptableSeverity := "LOW" }

/-- The same keyword as an expected finding, to read off the severity the
harness itself infers near the matched keyword. -/
def fpMedFinding : ExpectedFinding :=
  { id := "FPM", description := "benign withdraw", severity := "MEDIUM",
    keywords := ["safeWithdraw"] }

/-- Report rating the benign pattern `safewithdraw` as CRITICAL. -/
def fpHighCeilReport : String := "critical: safewithdraw is bad"

/-- False-positive spec with a HIGH ceiling for `safewithdraw`. -/
def fpHighCeilSpec : FalsePositiveSpec :=
  { description := "benign", keywords := ["safewithdraw"],
    maxAcceptableSeverity := "HIGH" }

/-- False-positive spec with a CRITICAL ceiling for `safewithdraw`. -/
def criticalCeilingFp : FalsePositiveSpec :=
  { description := "benign", keywords := ["safewithdraw"],
    maxAcceptableSeverity := "CRITICAL" }

/-- Report whose backward window before `reentrancy` contains the word
`overflow` (which contains `low`) and no severity label at all. -/
def overflowReport : String := "the overflow bug: reentrancy in withdraw"

/-- Expected finding with the single keyword `reentrancy`. -/
def overflowFinding : ExpectedFinding :=
  { id := "R1", description := "reentrancy", severity := "HIGH",
    keywords := ["reentrancy"] }

/-- Report whose false-positive window around `safewithdraw` contains only
the word `highlight` (which contains `high`) as a would-be marker. -/
def highlightReport : String := "highlight: safewithdraw is used here"

/-- False-positive spec with a LOW ceiling for `safewithdraw`. -/
def highlightFp : FalsePositiveSpec :=
  { description := "benign", keywords := ["safewithdraw"],
    maxAcceptableSeverity := "LOW" }

/-! ### Helper lemmas -/

theorem checkFindingDetectedLoop_iff (E : RegexEngine)
    (report reportLower : String) (ks : List String) :
    checkFindingDetectedLoop E report reportLower ks = true ↔
      ∃ kw ∈ ks, keywordMatches E report reportLower (toLowerStr kw) = true := by
  induction ks with
  | nil => simp [checkFindingDetectedLoop]
  | cons k rest ih =>
    simp only [checkFindingDetectedLoop]
    by_cases h : keywordMatches E report reportLower (toLowerStr k) = true
    · rw [if_pos h]
      constructor
      · intro _
        exact ⟨k, List.mem_cons_self k rest, h⟩
      · intro _
        rfl
    · rw [if_neg h, ih]
      constructor
      · rintro ⟨kw, hmem, hkw⟩
        exact ⟨kw, List.mem_cons_of_mem k hmem, hkw⟩
      · rintro ⟨kw, hmem, hkw⟩
        rcases List.mem_cons.mp hmem with rfl | hmem2
        · exact absurd hkw h
        · exact ⟨kw, hmem2, hkw⟩

theorem detectSeverityLoop_eq_findSome (reportLower : String) (ks : List String) :
    detectSeverityLoop reportLower ks =
      ks.findSome? (fun k => keywordSeverity reportLower (toLowerStr k)) := by
  induction ks with
  | nil => rfl
  | cons k rest ih =>
    simp only [detectSeverityLoop, List.findSome?]
    cases keywordSeverity reportLower (toLowerStr k) with
    | none => exact ih
    | some s => rfl

theorem detectSeverityLoop_eq_none_iff (reportLower : String) (ks : List String) :
    detectSeverityLoop reportLower ks = none ↔
      ∀ k ∈ ks, keywordSeverity reportLower (toLowerStr k) = none := by
  induction ks with
  | nil => simp [detectSeverityLoop]
  | cons k rest ih =>
    simp only [detectSeverityLoop]
    cases h : keywordSeverity reportLower (toLowerStr k) with
    | some s => simp [h]
    | none => simp [h, ih]

theorem foldl_or_eq {α : Type} (f : α → Bool) (l : List α) (b : Bool) :
    l.foldl (fun acc x => acc || f x) b = (b || l.any f) := by
  induction l generalizing b with
  | nil => simp
  | cons a t ih => simp [ih, Bool.or_assoc]

theorem checkFalsePositive_eq_any (report : String) (fp : FalsePositiveSpec) :
    checkFalsePositive report fp =
      fp.keywords.any (fun k => fpKeywordTriggers (toLowerStr report) fp (toLowerStr k)) := by
  show fp.keywords.foldl
      (fun acc k => acc || fpKeywordTriggers (toLowerStr report) fp (toLowerStr k))
      false = _
  rw [foldl_or_eq]
  simp

theorem fpKeywordTriggers_iff (reportLower : String) (fp : FalsePositiveSpec)
    (kw : String) :
    fpKeywordTriggers reportLower fp kw = true ↔
      ∃ idx, jsIndexOf reportLower kw = some idx ∧
        ((hasCriticalMarker (fpWindowAt reportLower idx) = true ∧
            maxRankOf fp.maxAcceptableSeverity < 4) ∨
         (hasHighMarker (fpWindowAt reportLower idx) = true ∧
            maxRankOf fp.maxAcceptableSeverity < 3)) := by
  unfold fpKeywordTriggers
  cases h : jsIndexOf reportLower kw with
  | none => simp
  | some idx =>
    simp [Bool.or_eq_true, Bool.and_eq_true, decide_eq_true_eq]

theorem fpKeywordTriggers_critical_ceiling (reportLower : String)
    (fp : FalsePositiveSpec) (kw : String)
    (h : maxRankOf fp.maxAcceptableSeverity = 4) :
    fpKeywordTriggers reportLower fp kw = false := by
  unfold fpKeywordTriggers
  cases hidx : jsIndexOf reportLower kw with
  | none => rfl
  | some idx => simp [h]

theorem any_false_of {α : Type} (p : α → Bool) (l : List α)
    (h : ∀ x ∈ l, p x = false) : l.any p = false := by
  induction l with
  | nil => rfl
  | cons a t ih =>
    simp only [List.any_cons, Bool.or_eq_false_iff]
    exact ⟨h a (List.mem_cons_self a t),
      ih (fun x hx => h x (List.mem_cons_of_mem a hx))⟩

theorem scoreTier_loop_le (E : RegexEngine) (report : String)
    (fs : List ExpectedFinding) :
    ∀ acc : TierResult, acc.found ≤ acc.total →
      (fs.foldl (scoreTierStep E report) acc).found ≤
        (fs.foldl (scoreTierStep E report) acc).total := by
  induction fs with
  | nil =>
    intro acc h
    exact h
  | cons f t ih =>
    intro acc h
    rw [List.foldl_cons]
    apply ih
    show acc.found + (if checkFindingDetected E report f then 1 else 0) ≤
      acc.total + 1
    split <;> omega

theorem scoreTier_found_le_total (E : RegexEngine) (report : String)
    (fs : List ExpectedFinding) :
    (scoreTier E report fs).found ≤ (scoreTier E report fs).total :=
  scoreTier_loop_le E report fs _ (Nat.le_refl 0)

theorem scoreFps_loop_le (report : String) (fps : List FalsePositiveSpec) :
    ∀ acc : FpResult, acc.triggered ≤ acc.total →
      (fps.foldl (scoreFpsStep report) acc).triggered ≤
        (fps.foldl (scoreFpsStep report) acc).total := by
  induction fps with
  | nil =>
    intro acc h
    exact h
  | cons fp t ih =>
    intro acc h
    rw [List.foldl_cons]
    apply ih
    show acc.triggered + (if checkFalsePositive report fp then 1 else 0) ≤
      acc.total + 1
    split <;> omega

theorem scoreFps_triggered_le_total (report : String)
    (fps : List FalsePositiveSpec) :
    (scoreFps report fps).triggered ≤ (scoreFps report fps).total :=
  scoreFps_loop_le report fps _ (Nat.le_refl 0)

theorem scoreSuite_inv (E : RegexEngine) (now depth : String)
    (suite : TestSuite) (report : String) :
    (scoreSuite E now depth suite report).mustDetect.found ≤
      (scoreSuite E now depth suite report).mustDetect.total ∧
    (scoreSuite E now depth suite report).falsePositives.triggered ≤
      (scoreSuite E now depth suite report).falsePositives.total :=
  ⟨scoreTier_found_le_total E report suite.expectedFindings.mustDetect,
   scoreFps_triggered_le_total report suite.expectedFindings.falsePositives⟩

theorem testContract_some (E : RegexEngine) (fileOk : TestSuite → Bool)
    (gen : TestSuite → GenResult) (now depth : String) (suite : TestSuite)
    (sr : SuiteResult) (h : testContract E fileOk gen now depth suite = some sr) :
    ∃ report, sr = scoreSuite E now depth suite report := by
  unfold testContract at h
  split at h
  · exact absurd h (by simp)
  · split at h
    · exact absurd h (by simp)
    · split at h
      · exact absurd h (by simp)
      · exact ⟨_, (Option.some.inj h).symm⟩

theorem runSuites_mem_inv (E : RegexEngine) (fileOk : TestSuite → Bool)
    (gen : TestSuite → GenResult) (now depth : String)
    (suites : List TestSuite) :
    ∀ r ∈ runSuites E fileOk gen now depth suites,
      r.mustDetect.found ≤ r.mustDetect.total ∧
      r.falsePositives.triggered ≤ r.falsePositives.total := by
  induction suites with
  | nil =>
    intro r hr
    simp [runSuites] at hr
  | cons s rest ih =>
    intro r hr
    unfold runSuites at hr
    cases htc : testContract E fileOk gen now depth s with
    | none =>
      rw [htc] at hr
      exact ih r hr
    | some sr =>
      rw [htc] at hr
      rcases List.mem_cons.mp hr with rfl | hmem
      · rcases testContract_some E fileOk gen now depth s r htc with ⟨report, hrep⟩
        rw [hrep]
        exact scoreSuite_inv E now depth s report
      · exact ih r hmem

theorem accTotals_loop_inv (rs : List SuiteResult) :
    ∀ t : Totals, t.foundMust ≤ t.totalMust → t.triggeredFP ≤ t.totalFP →
      (∀ r ∈ rs, r.mustDetect.found ≤ r.mustDetect.total ∧
        r.falsePositives.triggered ≤ r.falsePositives.total) →
      (rs.foldl accTotalsStep t).foundMust ≤ (rs.foldl accTotalsStep t).totalMust ∧
      (rs.foldl accTotalsStep t).triggeredFP ≤ (rs.foldl accTotalsStep t).totalFP := by
  induction rs with
  | nil =>
    intro t h1 h2 _
    exact ⟨h1, h2⟩
  | cons r rest ih =>
    intro t h1 h2 h
    rw [List.foldl_cons]
    refine ih _ ?_ ?_ ?_
    · have hr := (h r (List.mem_cons_self r rest)).1
      show t.foundMust + r.mustDetect.found ≤ t.totalMust + r.mustDetect.total
      omega
    · have hr := (h r (List.mem_cons_self r rest)).2
      show t.triggeredFP + r.falsePositives.triggered ≤
        t.totalFP + r.falsePositives.total
      omega
    · intro x hx
      exact h x (List.mem_cons_of_mem r hx)

theorem ratGe100_iff (found total : Nat) (hle : found ≤ total)
    (hpos : 0 < total) :
    (100 ≤ (found : ℚ) / total * 100) ↔ found = total := by
  have htot : (0 : ℚ) < (total : ℚ) := by exact_mod_cast hpos
  rw [div_mul_eq_mul_div, le_div_iff₀ htot,
    show (100 : ℚ) * total = (total : ℚ) * 100 by ring,
    mul_le_mul_right (by norm_num : (0 : ℚ) < 100)]
  constructor
  · intro h
    have h2 : total ≤ found := by exact_mod_cast h
    omega
  · intro h
    exact_mod_cast Nat.le_of_eq h.symm

theorem ratEq0_iff (trig total : Nat) (hpos : 0 < total) :
    ((trig : ℚ) / total * 100 = 0) ↔ trig = 0 := by
  have htot : (total : ℚ) ≠ 0 := by
    have : (0 : ℚ) < (total : ℚ) := by exact_mod_cast hpos
    exact ne_of_gt this
  constructor
  · intro h
    rcases mul_eq_zero.mp h with h1 | h2
    · rcases div_eq_zero_iff.mp h1 with h3 | h4
      · exact_mod_cast h3
      · exact absurd h4 htot
    · norm_num at h2
  · rintro rfl
    simp

theorem passedVerdict_iff_of_inv (t : Totals)
    (hmust : t.foundMust ≤ t.totalMust) (hfp : t.triggeredFP ≤ t.totalFP) :
    passedVerdict t = true ↔ (t.foundMust = t.totalMust ∧ t.triggeredFP = 0) := by
  unfold passedVerdict globalMustScore globalFpScore
  rcases Nat.eq_zero_or_pos t.totalMust with hm0 | hmpos
  · rcases Nat.eq_zero_or_pos t.totalFP with hf0 | hfpos
    · rw [if_neg (by omega), if_neg (by omega)]
      simp only [ScoreVal.parseGe100, ScoreVal.parseEq0, Bool.and_eq_true,
        decide_eq_true_eq]
      constructor
      · intro _
        omega
      · intro _
        norm_num
    · rw [if_neg (by omega), if_pos hfpos]
      simp only [ScoreVal.parseGe100, ScoreVal.parseEq0, Bool.and_eq_true,
        decide_eq_true_eq]
      rw [ratEq0_iff _ _ hfpos]
      constructor
      · intro h
        exact ⟨by omega, h.2⟩
      · intro h
        exact ⟨by norm_num, h.2⟩
  · rcases Nat.eq_zero_or_pos t.totalFP with hf0 | hfpos
    · rw [if_pos hmpos, if_neg (by omega)]
      simp only [ScoreVal.parseGe100, ScoreVal.parseEq0, Bool.and_eq_true,
        decide_eq_true_eq]
      rw [ratGe100_iff _ _ hmust hmpos]
      constructor
      · intro h
        exact ⟨h.1, by omega⟩
      · intro h
        exact ⟨h.1, trivial⟩
    · rw [if_pos hmpos, if_pos hfpos]
      simp only [ScoreVal.parseGe100, ScoreVal.parseEq0, Bool.and_eq_true,
        decide_eq_true_eq]
      rw [ratGe100_iff _ _ hmust hmpos, ratEq0_iff _ _ hfpos]

/-! ### Claim theorems -/

/-- Claim C1: for every regex engine, report and expected finding,
`checkFindingDetected` returns `true` iff at least one keyword matches
under the per-keyword semantics `keywordMatches` (regex attempt for
keywords containing `.*`, `[` or `(` with substring fallback on compile
failure, plain lowercase substring test otherwise), i.e. OR semantics
across the keyword list, and `false` when no keyword matches. -/
theorem checkFindingDetected_iff_keyword (E : RegexEngine) (report : String)
    (finding : ExpectedFinding) :
    checkFindingDetected E report finding = true ↔
      ∃ kw ∈ finding.keywords,
        keywordMatches E report (toLowerStr report) (toLowerStr kw) = true :=
  checkFindingDetectedLoop_iff E report (toLowerStr report) finding.keywords

/-- Claim C2, counterexample: a report rating the benign pattern exactly
one rank above a LOW ceiling (a MEDIUM marker near the keyword — the
harness's own severity inferencer reads MEDIUM there, whose rank strictly
exceeds the ceiling's rank) does NOT trigger `checkFalsePositive`,
contradicting the claimed strict-exceedance semantics. -/
theorem checkFalsePositive_medium_not_triggering :
    checkFalsePositive fpMedReport fpMedSpec = false ∧
    detectSeverityForFinding fpMedReport fpMedFinding = some Severity.MEDIUM ∧
    maxRankOf fpMedSpec.maxAcceptableSeverity < Severity.rank Severity.MEDIUM := by
  decide

/-- Claim C2 as amended: `checkFalsePositive` returns `true` iff near some
matched keyword there is a CRITICAL marker whose rank (4) strictly exceeds
the effective ceiling rank, or a HIGH marker whose rank (3) strictly
exceeds it; markers of rank MEDIUM or below never trigger the spec. -/
theorem checkFalsePositive_marker_rank_iff (report : String)
    (fp : FalsePositiveSpec) :
    checkFalsePositive report fp = true ↔
      ∃ kw ∈ fp.keywords, ∃ idx,
        jsIndexOf (toLowerStr report) (toLowerStr kw) = some idx ∧
        ((hasCriticalMarker (fpWindowAt (toLowerStr report) idx) = true ∧
            maxRankOf fp.maxAcceptableSeverity < Severity.rank Severity.CRITICAL) ∨
         (hasHighMarker (fpWindowAt (toLowerStr report) idx) = true ∧
            maxRankOf fp.maxAcceptableSeverity < Severity.rank Severity.HIGH)) := by
  rw [checkFalsePositive_eq_any, List.any_eq_true]
  constructor
  · rintro ⟨kw, hmem, htrig⟩
    exact ⟨kw, hmem, (fpKeywordTriggers_iff _ _ _).mp htrig⟩
  · rintro ⟨kw, hmem, hex⟩
    exact ⟨kw, hmem, (fpKeywordTriggers_iff _ _ _).mpr hex⟩

/-- Claim C3, counterexample: with `maxAcceptableSeverity = "HIGH"`
(rank 3, not strictly below HIGH's rank) the spec IS triggered by a
CRITICAL marker in the window, contradicting the claim that a spec with a
HIGH-or-above ceiling is never triggered. -/
theorem checkFalsePositive_high_ceiling_triggered :
    checkFalsePositive fpHighCeilReport fpHighCeilSpec = true ∧
    SEVERITY_RANK fpHighCeilSpec.maxAcceptableSeverity =
      some (Severity.rank Severity.HIGH) := by
  decide

/-- Claim C3 as amended: the spec is triggered exactly when some keyword's
asymmetric window `report[max(0,i-800) : min(len,i+200)]` of the
lowercased report triggers (OR across keywords), where a keyword triggers
iff its window contains a CRITICAL marker and the ceiling rank is strictly
below CRITICAL's rank, or a HIGH marker and the ceiling rank is strictly
below HIGH's rank; only a CRITICAL ceiling (rank 4) is never triggered —
a HIGH ceiling can still be triggered by a CRITICAL marker. -/
theorem checkFalsePositive_characterization (report : String)
    (fp : FalsePositiveSpec) :
    (checkFalsePositive report fp = true ↔
      ∃ kw ∈ fp.keywords,
        fpKeywordTriggers (toLowerStr report) fp (toLowerStr kw) = true) ∧
    (maxRankOf fp.maxAcceptableSeverity = Severity.rank Severity.CRITICAL →
      checkFalsePositive report fp = false) := by
  constructor
  · rw [checkFalsePositive_eq_any]
    exact List.any_eq_true
  · intro h4
    rw [checkFalsePositive_eq_any]
    exact any_false_of _ _
      (fun kw _ => fpKeywordTriggers_critical_ceiling _ _ _ h4)

/-- Witness for the amended claim C3 at a concrete input: with a CRITICAL
ceiling the spec is not triggered even though a CRITICAL marker sits next
to the matched keyword. -/
theorem checkFalsePositive_characterization_witness :
    checkFalsePositive fpHighCeilReport criticalCeilingFp = false :=
  (checkFalsePositive_characterization fpHighCeilReport criticalCeilingFp).2
    (by decide)

/-- Claim C4: `detectSeverityForFinding` processes the keywords in listed
order and returns on the first keyword yielding both a location (first
case-insensitive occurrence in the lowercased report) and a severity from
the 500-character backward window scanned in priority order CRITICAL,
HIGH, MEDIUM, LOW, INFO (word or emoji); it returns `none` exactly when no
keyword yields both. -/
theorem detectSeverityForFinding_first_keyword (report : String)
    (finding : ExpectedFinding) :
    detectSeverityForFinding report finding =
      finding.keywords.findSome?
        (fun k => keywordSeverity (toLowerStr report) (toLowerStr k)) ∧
    (detectSeverityForFinding report finding = none ↔
      ∀ k ∈ finding.keywords,
        keywordSeverity (toLowerStr report) (toLowerStr k) = none) :=
  ⟨detectSeverityLoop_eq_findSome (toLowerStr report) finding.keywords,
   detectSeverityLoop_eq_none_iff (toLowerStr report) finding.keywords⟩

/-- Claim C5: for every run, the final verdict passes iff every
must-detect finding summed over all scored suites was detected and no
false-positive spec was triggered; missed should/nice-to-detect findings
never enter the verdict. -/
theorem passedVerdict_iff (E : RegexEngine) (fileOk : TestSuite → Bool)
    (gen : TestSuite → GenResult) (now depth : String)
    (suites : List TestSuite) :
    passedVerdict (accTotals (runSuites E fileOk gen now depth suites)) = true ↔
      ((accTotals (runSuites E fileOk gen now depth suites)).foundMust =
        (accTotals (runSuites E fileOk gen now depth suites)).totalMust ∧
       (accTotals (runSuites E fileOk gen now depth suites)).triggeredFP = 0) := by
  have hinv := accTotals_loop_inv (runSuites E fileOk gen now depth suites)
    { totalMust := 0, foundMust := 0, totalAll := 0, foundAll := 0,
      totalFP := 0, triggeredFP := 0 }
    (Nat.le_refl 0) (Nat.le_refl 0)
    (runSuites_mem_inv E fileOk gen now depth suites)
  exact passedVerdict_iff_of_inv _ hinv.1 hinv.2

/-- Claim C6, counterexample: with a generator that throws for suite `A`
and succeeds for suite `B`, the run continues and scores `B`, but the
persisted contracts array contains only `B` — the failed suite is dropped
entirely, not reported as a distinct FAILED entry. -/
theorem runSuites_drops_failed :
    (runSuites trivialEngine (fun _ => true) genAB "t0" "quick"
      [suiteA, suiteB]).map SuiteResult.name = ["B"] := by
  decide

/-- Claim C6 as amended: when `testContract` fails for a suite (generator
error, missing contract file, or a report shorter than 100 characters),
the remaining suites are still processed and the failed suite contributes
nothing to any aggregate — the result list is identical to the run without
it — but it is silently omitted from the persisted contracts array rather
than recorded as a FAILED entry. -/
theorem runSuites_failed_skipped (E : RegexEngine) (fileOk : TestSuite → Bool)
    (gen : TestSuite → GenResult) (now depth : String) (s : TestSuite)
    (rest : List TestSuite)
    (h : testContract E fileOk gen now depth s = none) :
    runSuites E fileOk gen now depth (s :: rest) =
      runSuites E fileOk gen now depth rest := by
  simp only [runSuites, h]

/-- Witness for the amended claim C6 at a concrete input: suite `A` fails
to generate and the run over `[A, B]` equals the run over `[B]`. -/
theorem runSuites_failed_skipped_witness :
    testContract trivialEngine (fun _ => true) genAB "t0" "quick" suiteA =
      none ∧
    runSuites trivialEngine (fun _ => true) genAB "t0" "quick"
      [suiteA, suiteB] =
      runSuites trivialEngine (fun _ => true) genAB "t0" "quick" [suiteB] :=
  ⟨by decide,
   runSuites_failed_skipped trivialEngine (fun _ => true) genAB "t0" "quick"
     suiteA [suiteB] (by decide)⟩

/-- Claim C7, counterexample: on a run with zero summed totals the global
`mustScore` and `allScore` are reported as the percentage `100`, not as
the "not applicable" value the claim requires. -/
theorem globalScores_zero_total_not_na :
    (accTotals []).totalMust = 0 ∧ (accTotals []).totalAll = 0 ∧
    globalMustScore (accTotals []) = ScoreVal.pct 100 ∧
    globalAllScore (accTotals []) = ScoreVal.pct 100 ∧
    globalMustScore (accTotals []) ≠ ScoreVal.na ∧
    globalAllScore (accTotals []) ≠ ScoreVal.na := by
  decide

/-- Claim C7 as amended: the Run Aggregator does NOT follow the per-suite
zero-total convention: zero-total global `mustScore`/`allScore` are
reported as `100` (and `fpScore` as `0`), whereas only the per-suite
Suite Scorer reports `N/A` on an empty must-detect tier. -/
theorem zero_total_convention (rs : List SuiteResult)
    (must should nice : TierResult) (fps : FpResult)
    (h1 : (accTotals rs).totalMust = 0) (h2 : (accTotals rs).totalAll = 0)
    (h3 : (accTotals rs).totalFP = 0) (h4 : must.total = 0) :
    globalMustScore (accTotals rs) = ScoreVal.pct 100 ∧
    globalAllScore (accTotals rs) = ScoreVal.pct 100 ∧
    globalFpScore (accTotals rs) = ScoreVal.pct 0 ∧
    (suiteScores must should nice fps).critical = ScoreVal.na := by
  refine ⟨?_, ?_, ?_, ?_⟩
  · show (if 0 < (accTotals rs).totalMust then
      ScoreVal.pct (((accTotals rs).foundMust : ℚ) / (accTotals rs).totalMust * 100)
      else ScoreVal.pct 100) = ScoreVal.pct 100
    rw [if_neg (by omega)]
  · show (if 0 < (accTotals rs).totalAll then
      ScoreVal.pct (((accTotals rs).foundAll : ℚ) / (accTotals rs).totalAll * 100)
      else ScoreVal.pct 100) = ScoreVal.pct 100
    rw [if_neg (by omega)]
  · show (if 0 < (accTotals rs).totalFP then
      ScoreVal.pct (((accTotals rs).triggeredFP : ℚ) / (accTotals rs).totalFP * 100)
      else ScoreVal.pct 0) = ScoreVal.pct 0
    rw [if_neg (by omega)]
  · show (if 0 < must.total then
      ScoreVal.pct ((must.found : ℚ) / must.total * 100)
      else ScoreVal.na) = ScoreVal.na
    rw [if_neg (by omega)]

/-- Witness for the amended claim C7 at a concrete input: the empty run
and an empty must-detect tier. -/
theorem zero_total_convention_witness :
    ((accTotals []).totalMust = 0 ∧ (accTotals []).totalAll = 0 ∧
      (accTotals []).totalFP = 0 ∧ (0 : Nat) = 0) ∧
    (globalMustScore (accTotals []) = ScoreVal.pct 100 ∧
     globalAllScore (accTotals []) = ScoreVal.pct 100 ∧
     globalFpScore (accTotals []) = ScoreVal.pct 0 ∧
     (suiteScores ⟨0, 0, []⟩ ⟨0, 0, []⟩ ⟨0, 0, []⟩ ⟨0, 0, []⟩).critical =
       ScoreVal.na) :=
  ⟨by decide,
   zero_total_convention [] ⟨0, 0, []⟩ ⟨0, 0, []⟩ ⟨0, 0, []⟩ ⟨0, 0, []⟩
     (by decide) (by decide) (by decide) (by decide)⟩

/-- Claim C8, counterexample: scoring the same fixed report against the
same fixture at two different wall-clock instants yields different
`SuiteResult` objects — the `timestamp` field records the clock, so the
result is not byte-identical across the two calls. -/
theorem scoreSuite_timestamp_differs :
    scoreSuite trivialEngine "2024-01-01T00:00:00Z" "quick" suiteB
      longReport ≠
    scoreSuite trivialEngine "2024-01-01T00:00:01Z" "quick" suiteB
      longReport := by
  decide

/-- Claim C8 as amended: scoring is deterministic apart from the
`timestamp` field: for any two clock readings, the two `SuiteResult`
objects agree on every field except `timestamp`, and each is a pure
function of the engine, depth, suite and report. -/
theorem scoreSuite_deterministic_mod_timestamp (E : RegexEngine)
    (now₁ now₂ depth : String) (suite : TestSuite) (report : String) :
    scoreSuite E now₁ depth suite report =
      { scoreSuite E now₂ depth suite report with timestamp := now₁ } :=
  rfl

/-- Claim C9, counterexample: configuration errors (missing fixture file,
unreachable generator server) exit with code `1` — the same code as a
CI-mode failing verdict and not the distinct code (e.g. `2`) the claim
requires — and they do so even in non-CI mode, where the claim requires
exit code `0` on any outcome. -/
theorem mainExitCode_config_error_is_one :
    mainExitCode true false true true true = 1 ∧
    mainExitCode false false true true true = 1 ∧
    mainExitCode true true true false true = 1 ∧
    mainExitCode true true true true false = 1 := by
  decide

/-- Claim C9 as amended: the exit code is `1` for configuration errors
(missing fixture, empty suite filter, unreachable server) in any mode and
for a failing verdict in CI mode, and `0` otherwise; no other exit code
(in particular not `2`) is ever produced. -/
theorem mainExitCode_values (ciMode fixtureOk filterOk serverOk passed : Bool) :
    (mainExitCode ciMode fixtureOk filterOk serverOk passed =
      if fixtureOk && filterOk && serverOk && (!ciMode || passed) then 0
      else 1) ∧
    mainExitCode ciMode fixtureOk filterOk serverOk passed ≠ 2 := by
  cases ciMode <;> cases fixtureOk <;> cases filterOk <;> cases serverOk <;>
    cases passed <;> decide

/-- Claim C10: severity words are bare substrings — a backward window
containing only the word `overflow` (which contains `low`) makes the
severity inferencer return LOW, and a false-positive window containing
only the word `highlight` (which contains `high`) triggers a spec with a
LOW ceiling. -/
theorem severity_substring_artifacts :
    detectSeverityForFinding overflowReport overflowFinding =
      some Severity.LOW ∧
    checkFalsePositive highlightReport highlightFp = true := by
  decide

end RegressionTest
